import Mathlib

/-!
Verification of the content-negotiated, schema-probing decode/encode pipeline
of the `relay-api-types` / `relay-server` crates.

The probing combinator `SubmitBlockRequest.from_ssz_bytes`, the content
negotiator (`Ssz.from_request`, `JsonOrSsz.from_request`) and the result
encoder (`build_response`) are translated from the Rust source.  The
per-generation SSZ structural decoders and the serde JSON machinery live in
external crates (`ethereum_ssz`, `lighthouse types`, `serde`); those parts are
modelled from the specification, as noted on each definition.

Machine integers are represented as `Nat` with explicit `% 2 ^ w`
normalisation where overflow matters; byte strings are `List Nat` with each
entry below 256.
-/

/-! ## Little-endian byte encoding of fixed-width integers -/

/-- Little-endian encoding of `n` into exactly `w` bytes (SSZ basic-type
encoding of a `w`-byte unsigned integer; the value is taken modulo `256 ^ w`). -/
def natToBytesLE : Nat → Nat → List Nat
  | 0, _ => []
  | w + 1, n => n % 256 :: natToBytesLE w (n / 256)

/-- Little-endian reading of a byte list as an unsigned integer. -/
def bytesToNatLE : List Nat → Nat
  | [] => 0
  | b :: bs => b + 256 * bytesToNatLE bs

@[simp] theorem length_natToBytesLE (w n : Nat) : (natToBytesLE w n).length = w := by
  induction w generalizing n with
  | zero => rfl
  | succ w ih => simp [natToBytesLE, ih]

theorem bytesToNatLE_natToBytesLE (w n : Nat) :
    bytesToNatLE (natToBytesLE w n) = n % 256 ^ w := by
  induction w generalizing n with
  | zero => simp [natToBytesLE, bytesToNatLE, Nat.mod_one]
  | succ w ih =>
    simp only [natToBytesLE, bytesToNatLE, ih]
    rw [pow_succ, Nat.mul_comm (256 ^ w) 256, Nat.mod_mul]

/-- Read the `w` bytes starting at position `s` as a little-endian integer. -/
def readNat (bytes : List Nat) (s w : Nat) : Nat :=
  bytesToNatLE ((bytes.drop s).take w)

/-- The contiguous region of `l` bytes starting at position `s`. -/
def sliceL (bytes : List Nat) (s l : Nat) : List Nat :=
  (bytes.drop s).take l

theorem drop_append_skip {α : Type} {xs : List α} (ys : List α) {s : Nat}
    (h : xs.length ≤ s) : (xs ++ ys).drop s = ys.drop (s - xs.length) := by
  rw [List.drop_append_eq_append_drop, List.drop_eq_nil_of_le h, List.nil_append]

theorem readNat_append_skip {xs ys : List Nat} {s w : Nat} (h : xs.length ≤ s) :
    readNat (xs ++ ys) s w = readNat ys (s - xs.length) w := by
  unfold readNat
  rw [drop_append_skip ys h]

theorem readNat_encode {w n : Nat} (ys : List Nat) :
    readNat (natToBytesLE w n ++ ys) 0 w = n % 256 ^ w := by
  unfold readNat
  rw [List.drop_zero, List.take_left' (length_natToBytesLE w n), bytesToNatLE_natToBytesLE]

theorem sliceL_append_skip {xs ys : List Nat} {s l : Nat} (h : xs.length ≤ s) :
    sliceL (xs ++ ys) s l = sliceL ys (s - xs.length) l := by
  unfold sliceL
  rw [drop_append_skip ys h]

/-! ## Result type of the binary decoders

Shallow embedding of `ssz::DecodeError` (external crate `ethereum_ssz`):
only the constructors exercised by the modelled structural checks are kept. -/

inductive DecodeError where
  | invalidByteLength (len expected : Nat)
  | offsetMismatch (off expected : Nat)
  | offsetsAreDecreasing (off : Nat)
  | offsetOutOfBounds (off len : Nat)
deriving DecidableEq

/-- `true` exactly on the `ok` arm of an `Except`. -/
def exceptIsOk {ε α : Type} : Except ε α → Bool
  | .ok _ => true
  | .error _ => false

theorem exceptIsOk_false_iff {ε α : Type} (x : Except ε α) :
    exceptIsOk x = false ↔ ∃ e, x = .error e := by
  cases x <;> simp [exceptIsOk]

/-! ## Data model: `BidTraceV1` (src/relay-api-types/src/lib.rs) -/

/-- `BidTraceV1`: the trace record carried by every schema generation.
Scalar identifiers are `Nat`s; their wire widths (8/32/48/20/32 bytes) follow
the field types `Slot`, `ExecutionBlockHash`, `PublicKeyBytes`, `Address`,
`Uint256` of the external `types` crate. -/
structure BidTraceV1 where
  slot : Nat
  parent_hash : Nat
  block_hash : Nat
  builder_pubkey : Nat
  proposer_pubkey : Nat
  proposer_fee_recipient : Nat
  gas_limit : Nat
  gas_used : Nat
  value : Nat
  block_number : Nat
  num_tx : Nat
deriving DecidableEq

/-- All scalar fields fit their wire widths. -/
def BidTraceV1.wellFormed (m : BidTraceV1) : Prop :=
  m.slot < 256 ^ 8 ∧ m.parent_hash < 256 ^ 32 ∧ m.block_hash < 256 ^ 32 ∧
  m.builder_pubkey < 256 ^ 48 ∧ m.proposer_pubkey < 256 ^ 48 ∧
  m.proposer_fee_recipient < 256 ^ 20 ∧ m.gas_limit < 256 ^ 8 ∧
  m.gas_used < 256 ^ 8 ∧ m.value < 256 ^ 32 ∧ m.block_number < 256 ^ 8 ∧
  m.num_tx < 256 ^ 8

instance (m : BidTraceV1) : Decidable m.wellFormed := by
  unfold BidTraceV1.wellFormed; infer_instance

/-- SSZ encoding of `BidTraceV1`: the concatenation of its fixed-width fields,
252 bytes in total (derived `Encode` of the external `ssz_derive` crate). -/
def BidTraceV1.as_ssz_bytes (m : BidTraceV1) : List Nat :=
  natToBytesLE 8 m.slot ++ natToBytesLE 32 m.parent_hash ++
  natToBytesLE 32 m.block_hash ++ natToBytesLE 48 m.builder_pubkey ++
  natToBytesLE 48 m.proposer_pubkey ++ natToBytesLE 20 m.proposer_fee_recipient ++
  natToBytesLE 8 m.gas_limit ++ natToBytesLE 8 m.gas_used ++
  natToBytesLE 32 m.value ++ natToBytesLE 8 m.block_number ++
  natToBytesLE 8 m.num_tx

/-- SSZ structural read of a `BidTraceV1` from the first 252 bytes of `bytes`
(fixed-width fields at fixed positions; total, as a fixed-size region carries
no structural checks beyond its length, checked by the caller). -/
def BidTraceV1.from_bytes (bytes : List Nat) : BidTraceV1 where
  slot := readNat bytes 0 8
  parent_hash := readNat bytes 8 32
  block_hash := readNat bytes 40 32
  builder_pubkey := readNat bytes 72 48
  proposer_pubkey := readNat bytes 120 48
  proposer_fee_recipient := readNat bytes 168 20
  gas_limit := readNat bytes 188 8
  gas_used := readNat bytes 196 8
  value := readNat bytes 204 32
  block_number := readNat bytes 236 8
  num_tx := readNat bytes 244 8

@[simp] theorem length_bidTrace_ssz (m : BidTraceV1) : m.as_ssz_bytes.length = 252 := by
  simp [BidTraceV1.as_ssz_bytes]

/-! ## Data model: the four execution-payload schema generations

Modelled from the spec: the concrete `ExecutionPayloadBellatrix` /
`Capella` / `Deneb` / `Electra` types and their derived SSZ codecs live in the
external `types` and `ethereum_ssz` crates.  Per the spec, each generation
adds fields to the previous one (Capella adds a variable-length withdrawals
region, Deneb adds two fixed 8-byte gas counters, Electra adds a further
variable-length requests region), and the binary format encodes each
variable-length field through an explicit 4-byte offset in the fixed part,
whose structural validation (first offset equals the fixed-part length,
offsets non-decreasing and within bounds) is what rejects bytes of a
different generation.  Variable-length regions are modelled as raw byte
lists. -/

structure ExecutionPayloadBellatrix where
  block_number : Nat
  extra_data : List Nat
deriving DecidableEq

structure ExecutionPayloadCapella where
  block_number : Nat
  extra_data : List Nat
  withdrawals : List Nat
deriving DecidableEq

structure ExecutionPayloadDeneb where
  block_number : Nat
  extra_data : List Nat
  withdrawals : List Nat
  blob_gas_used : Nat
  excess_blob_gas : Nat
deriving DecidableEq

structure ExecutionPayloadElectra where
  block_number : Nat
  extra_data : List Nat
  withdrawals : List Nat
  blob_gas_used : Nat
  excess_blob_gas : Nat
  deposit_requests : List Nat
deriving DecidableEq

/-- Fixed-part length of the Bellatrix payload: 8-byte `block_number` plus the
4-byte offset of `extra_data`. -/
def bellatrixFixedLen : Nat := 12

/-- Fixed-part length of the Capella payload: Bellatrix plus the 4-byte offset
of `withdrawals`. -/
def capellaFixedLen : Nat := 16

/-- Fixed-part length of the Deneb payload: Capella plus the two fixed 8-byte
gas counters. -/
def denebFixedLen : Nat := 32

/-- Fixed-part length of the Electra payload: Deneb plus the 4-byte offset of
`deposit_requests`. -/
def electraFixedLen : Nat := 36

/-- Modelled from the spec: derived SSZ encoding of the Bellatrix payload. -/
def ExecutionPayloadBellatrix.as_ssz_bytes (p : ExecutionPayloadBellatrix) : List Nat :=
  natToBytesLE 8 p.block_number ++ natToBytesLE 4 bellatrixFixedLen ++ p.extra_data

/-- Modelled from the spec: derived SSZ encoding of the Capella payload. -/
def ExecutionPayloadCapella.as_ssz_bytes (p : ExecutionPayloadCapella) : List Nat :=
  natToBytesLE 8 p.block_number ++ natToBytesLE 4 capellaFixedLen ++
  natToBytesLE 4 (capellaFixedLen + p.extra_data.length) ++ p.extra_data ++ p.withdrawals

/-- Modelled from the spec: derived SSZ encoding of the Deneb payload. -/
def ExecutionPayloadDeneb.as_ssz_bytes (p : ExecutionPayloadDeneb) : List Nat :=
  natToBytesLE 8 p.block_number ++ natToBytesLE 4 denebFixedLen ++
  natToBytesLE 4 (denebFixedLen + p.extra_data.length) ++
  natToBytesLE 8 p.blob_gas_used ++ natToBytesLE 8 p.excess_blob_gas ++
  p.extra_data ++ p.withdrawals

/-- Modelled from the spec: derived SSZ encoding of the Electra payload. -/
def ExecutionPayloadElectra.as_ssz_bytes (p : ExecutionPayloadElectra) : List Nat :=
  natToBytesLE 8 p.block_number ++ natToBytesLE 4 electraFixedLen ++
  natToBytesLE 4 (electraFixedLen + p.extra_data.length) ++
  natToBytesLE 8 p.blob_gas_used ++ natToBytesLE 8 p.excess_blob_gas ++
  natToBytesLE 4 (electraFixedLen + p.extra_data.length + p.withdrawals.length) ++
  p.extra_data ++ p.withdrawals ++ p.deposit_requests

/-- Modelled from the spec: derived SSZ structural decode of the Bellatrix
payload.  The single variable-length field starts right after the fixed part,
so its offset (read at position 8) must equal the fixed-part length. -/
def ExecutionPayloadBellatrix.from_ssz_bytes (b : List Nat) :
    Except DecodeError ExecutionPayloadBellatrix :=
  if b.length < bellatrixFixedLen then .error (.invalidByteLength b.length bellatrixFixedLen)
  else if readNat b 8 4 ≠ bellatrixFixedLen then
    .error (.offsetMismatch (readNat b 8 4) bellatrixFixedLen)
  else .ok { block_number := readNat b 0 8, extra_data := b.drop bellatrixFixedLen }

/-- Modelled from the spec: derived SSZ structural decode of the Capella
payload (first offset at 8 must equal the fixed-part length 16; the second
offset at 12 must be non-decreasing and within bounds). -/
def ExecutionPayloadCapella.from_ssz_bytes (b : List Nat) :
    Except DecodeError ExecutionPayloadCapella :=
  if b.length < capellaFixedLen then .error (.invalidByteLength b.length capellaFixedLen)
  else if readNat b 8 4 ≠ capellaFixedLen then
    .error (.offsetMismatch (readNat b 8 4) capellaFixedLen)
  else if readNat b 12 4 < capellaFixedLen then .error (.offsetsAreDecreasing (readNat b 12 4))
  else if b.length < readNat b 12 4 then .error (.offsetOutOfBounds (readNat b 12 4) b.length)
  else .ok { block_number := readNat b 0 8
             extra_data := sliceL b capellaFixedLen (readNat b 12 4 - capellaFixedLen)
             withdrawals := b.drop (readNat b 12 4) }

/-- Modelled from the spec: derived SSZ structural decode of the Deneb payload
(fixed part grows to 32 bytes with the two gas counters; first offset at 8
must equal 32). -/
def ExecutionPayloadDeneb.from_ssz_bytes (b : List Nat) :
    Except DecodeError ExecutionPayloadDeneb :=
  if b.length < denebFixedLen then .error (.invalidByteLength b.length denebFixedLen)
  else if readNat b 8 4 ≠ denebFixedLen then
    .error (.offsetMismatch (readNat b 8 4) denebFixedLen)
  else if readNat b 12 4 < denebFixedLen then .error (.offsetsAreDecreasing (readNat b 12 4))
  else if b.length < readNat b 12 4 then .error (.offsetOutOfBounds (readNat b 12 4) b.length)
  else .ok { block_number := readNat b 0 8
             extra_data := sliceL b denebFixedLen (readNat b 12 4 - denebFixedLen)
             withdrawals := b.drop (readNat b 12 4)
             blob_gas_used := readNat b 16 8
             excess_blob_gas := readNat b 24 8 }

/-- Modelled from the spec: derived SSZ structural decode of the Electra
payload (fixed part 36 bytes; three offsets, non-decreasing, first equal to
36, all within bounds). -/
def ExecutionPayloadElectra.from_ssz_bytes (b : List Nat) :
    Except DecodeError ExecutionPayloadElectra :=
  if b.length < electraFixedLen then .error (.invalidByteLength b.length electraFixedLen)
  else if readNat b 8 4 ≠ electraFixedLen then
    .error (.offsetMismatch (readNat b 8 4) electraFixedLen)
  else if readNat b 12 4 < electraFixedLen then .error (.offsetsAreDecreasing (readNat b 12 4))
  else if readNat b 32 4 < readNat b 12 4 then .error (.offsetsAreDecreasing (readNat b 32 4))
  else if b.length < readNat b 32 4 then .error (.offsetOutOfBounds (readNat b 32 4) b.length)
  else .ok { block_number := readNat b 0 8
             extra_data := sliceL b electraFixedLen (readNat b 12 4 - electraFixedLen)
             withdrawals := sliceL b (readNat b 12 4) (readNat b 32 4 - readNat b 12 4)
             blob_gas_used := readNat b 16 8
             excess_blob_gas := readNat b 24 8
             deposit_requests := b.drop (readNat b 32 4) }

/-- Every byte of the list is an actual byte. -/
def isByteList (l : List Nat) : Prop := ∀ x ∈ l, x < 256

instance (l : List Nat) : Decidable (isByteList l) := by
  unfold isByteList; infer_instance

/-- Scalars fit their widths; offsets of the variable regions fit 4 bytes. -/
def ExecutionPayloadBellatrix.wellFormed (p : ExecutionPayloadBellatrix) : Prop :=
  p.block_number < 256 ^ 8 ∧ isByteList p.extra_data

/-- Scalars fit their widths; offsets of the variable regions fit 4 bytes. -/
def ExecutionPayloadCapella.wellFormed (p : ExecutionPayloadCapella) : Prop :=
  p.block_number < 256 ^ 8 ∧ isByteList p.extra_data ∧ isByteList p.withdrawals ∧
  capellaFixedLen + p.extra_data.length < 256 ^ 4

/-- Scalars fit their widths; offsets of the variable regions fit 4 bytes. -/
def ExecutionPayloadDeneb.wellFormed (p : ExecutionPayloadDeneb) : Prop :=
  p.block_number < 256 ^ 8 ∧ p.blob_gas_used < 256 ^ 8 ∧ p.excess_blob_gas < 256 ^ 8 ∧
  isByteList p.extra_data ∧ isByteList p.withdrawals ∧
  denebFixedLen + p.extra_data.length < 256 ^ 4

/-- Scalars fit their widths; offsets of the variable regions fit 4 bytes. -/
def ExecutionPayloadElectra.wellFormed (p : ExecutionPayloadElectra) : Prop :=
  p.block_number < 256 ^ 8 ∧ p.blob_gas_used < 256 ^ 8 ∧ p.excess_blob_gas < 256 ^ 8 ∧
  isByteList p.extra_data ∧ isByteList p.withdrawals ∧ isByteList p.deposit_requests ∧
  electraFixedLen + p.extra_data.length + p.withdrawals.length < 256 ^ 4

instance (p : ExecutionPayloadBellatrix) : Decidable p.wellFormed := by
  unfold ExecutionPayloadBellatrix.wellFormed; infer_instance

instance (p : ExecutionPayloadCapella) : Decidable p.wellFormed := by
  unfold ExecutionPayloadCapella.wellFormed; infer_instance

instance (p : ExecutionPayloadDeneb) : Decidable p.wellFormed := by
  unfold ExecutionPayloadDeneb.wellFormed; infer_instance

instance (p : ExecutionPayloadElectra) : Decidable p.wellFormed := by
  unfold ExecutionPayloadElectra.wellFormed; infer_instance

/-! ## Data model: `SubmitBlockRequest` and its four variants
(src/relay-api-types/src/lib.rs, `superstruct` expansion) -/

structure SubmitBlockRequestBellatrix where
  message : BidTraceV1
  execution_payload : ExecutionPayloadBellatrix
  signature : Nat
deriving DecidableEq

structure SubmitBlockRequestCapella where
  message : BidTraceV1
  execution_payload : ExecutionPayloadCapella
  signature : Nat
deriving DecidableEq

structure SubmitBlockRequestDeneb where
  message : BidTraceV1
  execution_payload : ExecutionPayloadDeneb
  signature : Nat
deriving DecidableEq

structure SubmitBlockRequestElectra where
  message : BidTraceV1
  execution_payload : ExecutionPayloadElectra
  signature : Nat
deriving DecidableEq

/-- The untagged union over the four schema generations (the `superstruct`
enum `SubmitBlockRequest`). -/
inductive SubmitBlockRequest where
  | Bellatrix (req : SubmitBlockRequestBellatrix)
  | Capella (req : SubmitBlockRequestCapella)
  | Deneb (req : SubmitBlockRequestDeneb)
  | Electra (req : SubmitBlockRequestElectra)
deriving DecidableEq

/-- The container's fixed part is shared by all four variants: the 252-byte
trace record, the 4-byte offset of the variable-size payload (which always
equals 352, the fixed-part length) and the 96-byte signature; the payload
region follows. -/
def submitFixedLen : Nat := 352

/-- Shared wire layout of every `SubmitBlockRequest` variant: trace record,
payload offset, signature, then the payload region. -/
def encodeSubmitWith (m : BidTraceV1) (sig : Nat) (pb : List Nat) : List Nat :=
  m.as_ssz_bytes ++ natToBytesLE 4 submitFixedLen ++ natToBytesLE 96 sig ++ pb

/-- Derived SSZ encoding of the Bellatrix variant (external `ssz_derive`). -/
def SubmitBlockRequestBellatrix.as_ssz_bytes (r : SubmitBlockRequestBellatrix) : List Nat :=
  encodeSubmitWith r.message r.signature r.execution_payload.as_ssz_bytes

/-- Derived SSZ encoding of the Capella variant (external `ssz_derive`). -/
def SubmitBlockRequestCapella.as_ssz_bytes (r : SubmitBlockRequestCapella) : List Nat :=
  encodeSubmitWith r.message r.signature r.execution_payload.as_ssz_bytes

/-- Derived SSZ encoding of the Deneb variant (external `ssz_derive`). -/
def SubmitBlockRequestDeneb.as_ssz_bytes (r : SubmitBlockRequestDeneb) : List Nat :=
  encodeSubmitWith r.message r.signature r.execution_payload.as_ssz_bytes

/-- Derived SSZ encoding of the Electra variant (external `ssz_derive`). -/
def SubmitBlockRequestElectra.as_ssz_bytes (r : SubmitBlockRequestElectra) : List Nat :=
  encodeSubmitWith r.message r.signature r.execution_payload.as_ssz_bytes

/-- `ssz(enum_behaviour = "transparent")`: the union encodes as its active
variant, with no tag byte. -/
def SubmitBlockRequest.as_ssz_bytes : SubmitBlockRequest → List Nat
  | .Bellatrix r => r.as_ssz_bytes
  | .Capella r => r.as_ssz_bytes
  | .Deneb r => r.as_ssz_bytes
  | .Electra r => r.as_ssz_bytes

/-- Modelled from the spec: derived SSZ structural decode of the Bellatrix
variant (container with one variable-size field: length check, payload-offset
check, then the payload's own structural decode). -/
def SubmitBlockRequestBellatrix.from_ssz_bytes (bytes : List Nat) :
    Except DecodeError SubmitBlockRequestBellatrix :=
  if bytes.length < submitFixedLen then .error (.invalidByteLength bytes.length submitFixedLen)
  else if readNat bytes 252 4 ≠ submitFixedLen then
    .error (.offsetMismatch (readNat bytes 252 4) submitFixedLen)
  else
    match ExecutionPayloadBellatrix.from_ssz_bytes (bytes.drop submitFixedLen) with
    | .error e => .error e
    | .ok p => .ok { message := BidTraceV1.from_bytes bytes
                     execution_payload := p
                     signature := readNat bytes 256 96 }

/-- Modelled from the spec: derived SSZ structural decode of the Capella
variant. -/
def SubmitBlockRequestCapella.from_ssz_bytes (bytes : List Nat) :
    Except DecodeError SubmitBlockRequestCapella :=
  if bytes.length < submitFixedLen then .error (.invalidByteLength bytes.length submitFixedLen)
  else if readNat bytes 252 4 ≠ submitFixedLen then
    .error (.offsetMismatch (readNat bytes 252 4) submitFixedLen)
  else
    match ExecutionPayloadCapella.from_ssz_bytes (bytes.drop submitFixedLen) with
    | .error e => .error e
    | .ok p => .ok { message := BidTraceV1.from_bytes bytes
                     execution_payload := p
                     signature := readNat bytes 256 96 }

/-- Modelled from the spec: derived SSZ structural decode of the Deneb
variant. -/
def SubmitBlockRequestDeneb.from_ssz_bytes (bytes : List Nat) :
    Except DecodeError SubmitBlockRequestDeneb :=
  if bytes.length < submitFixedLen then .error (.invalidByteLength bytes.length submitFixedLen)
  else if readNat bytes 252 4 ≠ submitFixedLen then
    .error (.offsetMismatch (readNat bytes 252 4) submitFixedLen)
  else
    match ExecutionPayloadDeneb.from_ssz_bytes (bytes.drop submitFixedLen) with
    | .error e => .error e
    | .ok p => .ok { message := BidTraceV1.from_bytes bytes
                     execution_payload := p
                     signature := readNat bytes 256 96 }

/-- Modelled from the spec: derived SSZ structural decode of the Electra
variant. -/
def SubmitBlockRequestElectra.from_ssz_bytes (bytes : List Nat) :
    Except DecodeError SubmitBlockRequestElectra :=
  if bytes.length < submitFixedLen then .error (.invalidByteLength bytes.length submitFixedLen)
  else if readNat bytes 252 4 ≠ submitFixedLen then
    .error (.offsetMismatch (readNat bytes 252 4) submitFixedLen)
  else
    match ExecutionPayloadElectra.from_ssz_bytes (bytes.drop submitFixedLen) with
    | .error e => .error e
    | .ok p => .ok { message := BidTraceV1.from_bytes bytes
                     execution_payload := p
                     signature := readNat bytes 256 96 }

/-- The schema-probing binary decoder, translated from
`impl ssz::Decode for SubmitBlockRequest` in src/relay-api-types/src/lib.rs:
attempt Electra, then Deneb, then Capella; on a third failure return the
Bellatrix attempt's result (its error, when it also fails, is surfaced
verbatim via `?`). -/
def SubmitBlockRequest.from_ssz_bytes (bytes : List Nat) :
    Except DecodeError SubmitBlockRequest :=
  match SubmitBlockRequestElectra.from_ssz_bytes bytes with
  | .ok req => .ok (.Electra req)
  | .error _ =>
    match SubmitBlockRequestDeneb.from_ssz_bytes bytes with
    | .ok req => .ok (.Deneb req)
    | .error _ =>
      match SubmitBlockRequestCapella.from_ssz_bytes bytes with
      | .ok req => .ok (.Capella req)
      | .error _ =>
        match SubmitBlockRequestBellatrix.from_ssz_bytes bytes with
        | .ok req => .ok (.Bellatrix req)
        | .error e => .error e

/-- Type-level invariants of the Rust value (field widths, offset ranges). -/
def SubmitBlockRequestBellatrix.wellFormed (r : SubmitBlockRequestBellatrix) : Prop :=
  r.message.wellFormed ∧ r.signature < 256 ^ 96 ∧ r.execution_payload.wellFormed

/-- Type-level invariants of the Rust value (field widths, offset ranges). -/
def SubmitBlockRequestCapella.wellFormed (r : SubmitBlockRequestCapella) : Prop :=
  r.message.wellFormed ∧ r.signature < 256 ^ 96 ∧ r.execution_payload.wellFormed

/-- Type-level invariants of the Rust value (field widths, offset ranges). -/
def SubmitBlockRequestDeneb.wellFormed (r : SubmitBlockRequestDeneb) : Prop :=
  r.message.wellFormed ∧ r.signature < 256 ^ 96 ∧ r.execution_payload.wellFormed

/-- Type-level invariants of the Rust value (field widths, offset ranges). -/
def SubmitBlockRequestElectra.wellFormed (r : SubmitBlockRequestElectra) : Prop :=
  r.message.wellFormed ∧ r.signature < 256 ^ 96 ∧ r.execution_payload.wellFormed

/-- Type-level invariants of the Rust value (field widths, offset ranges). -/
def SubmitBlockRequest.wellFormed : SubmitBlockRequest → Prop
  | .Bellatrix r => r.wellFormed
  | .Capella r => r.wellFormed
  | .Deneb r => r.wellFormed
  | .Electra r => r.wellFormed

instance (r : SubmitBlockRequestBellatrix) : Decidable r.wellFormed := by
  unfold SubmitBlockRequestBellatrix.wellFormed; infer_instance

instance (r : SubmitBlockRequestCapella) : Decidable r.wellFormed := by
  unfold SubmitBlockRequestCapella.wellFormed; infer_instance

instance (r : SubmitBlockRequestDeneb) : Decidable r.wellFormed := by
  unfold SubmitBlockRequestDeneb.wellFormed; infer_instance

instance (r : SubmitBlockRequestElectra) : Decidable r.wellFormed := by
  unfold SubmitBlockRequestElectra.wellFormed; infer_instance

instance : (r : SubmitBlockRequest) → Decidable r.wellFormed := by
  intro r; cases r <;> { unfold SubmitBlockRequest.wellFormed; infer_instance }

deriving instance DecidableEq for Except

/-! ## Round-trip and cross-generation rejection of the payload codecs -/

theorem readNat8_bellatrix_encode (p : ExecutionPayloadBellatrix) :
    readNat p.as_ssz_bytes 8 4 = 12 := by
  simp [ExecutionPayloadBellatrix.as_ssz_bytes, bellatrixFixedLen, List.append_assoc,
    readNat_append_skip, readNat_encode]

theorem readNat8_capella_encode (p : ExecutionPayloadCapella) :
    readNat p.as_ssz_bytes 8 4 = 16 := by
  simp [ExecutionPayloadCapella.as_ssz_bytes, capellaFixedLen, List.append_assoc,
    readNat_append_skip, readNat_encode]

theorem readNat8_deneb_encode (p : ExecutionPayloadDeneb) :
    readNat p.as_ssz_bytes 8 4 = 32 := by
  simp [ExecutionPayloadDeneb.as_ssz_bytes, denebFixedLen, List.append_assoc,
    readNat_append_skip, readNat_encode]

theorem bellatrix_payload_roundtrip (p : ExecutionPayloadBellatrix) (hp : p.wellFormed) :
    ExecutionPayloadBellatrix.from_ssz_bytes p.as_ssz_bytes = .ok p := by
  obtain ⟨hbn, hed⟩ := hp
  norm_num at hbn
  have hlen : p.as_ssz_bytes.length = 12 + p.extra_data.length := by
    simp [ExecutionPayloadBellatrix.as_ssz_bytes]; omega
  have h0 : readNat p.as_ssz_bytes 0 8 = p.block_number := by
    simp [ExecutionPayloadBellatrix.as_ssz_bytes, List.append_assoc, readNat_encode]
    omega
  have hdrop : p.as_ssz_bytes.drop 12 = p.extra_data := by
    rw [show p.as_ssz_bytes =
      (natToBytesLE 8 p.block_number ++ natToBytesLE 4 12) ++ p.extra_data from by
        simp [ExecutionPayloadBellatrix.as_ssz_bytes, bellatrixFixedLen, List.append_assoc]]
    rw [List.drop_left' (by simp)]
  unfold ExecutionPayloadBellatrix.from_ssz_bytes
  simp only [bellatrixFixedLen]
  rw [if_neg (by rw [hlen]; omega), if_neg (by rw [readNat8_bellatrix_encode]; omega), h0, hdrop]

theorem capella_payload_roundtrip (p : ExecutionPayloadCapella) (hp : p.wellFormed) :
    ExecutionPayloadCapella.from_ssz_bytes p.as_ssz_bytes = .ok p := by
  obtain ⟨hbn, hed, hw, hoff⟩ := hp
  norm_num [capellaFixedLen] at hbn hoff
  have hlen : p.as_ssz_bytes.length = 16 + p.extra_data.length + p.withdrawals.length := by
    simp [ExecutionPayloadCapella.as_ssz_bytes]; omega
  have h0 : readNat p.as_ssz_bytes 0 8 = p.block_number := by
    simp [ExecutionPayloadCapella.as_ssz_bytes, List.append_assoc, readNat_encode]
    omega
  have h12 : readNat p.as_ssz_bytes 12 4 = 16 + p.extra_data.length := by
    simp [ExecutionPayloadCapella.as_ssz_bytes, capellaFixedLen, List.append_assoc,
      readNat_append_skip, readNat_encode]
    omega
  have hgrp0 : p.as_ssz_bytes =
      (natToBytesLE 8 p.block_number ++ natToBytesLE 4 16 ++
        natToBytesLE 4 (16 + p.extra_data.length)) ++ (p.extra_data ++ p.withdrawals) := by
    simp [ExecutionPayloadCapella.as_ssz_bytes, capellaFixedLen, List.append_assoc]
  have hgrp1 : p.as_ssz_bytes =
      (natToBytesLE 8 p.block_number ++ natToBytesLE 4 16 ++
        natToBytesLE 4 (16 + p.extra_data.length) ++ p.extra_data) ++ p.withdrawals := by
    simp [ExecutionPayloadCapella.as_ssz_bytes, capellaFixedLen, List.append_assoc]
  have hslice : sliceL p.as_ssz_bytes 16 p.extra_data.length = p.extra_data := by
    rw [hgrp0]; unfold sliceL
    rw [List.drop_left' (by simp), List.take_left' rfl]
  have hdrop : p.as_ssz_bytes.drop (16 + p.extra_data.length) = p.withdrawals := by
    rw [hgrp1, List.drop_left' (by simp; omega)]
  unfold ExecutionPayloadCapella.from_ssz_bytes
  simp only [capellaFixedLen]
  rw [if_neg (by rw [hlen]; omega), if_neg (by rw [readNat8_capella_encode]; omega), h12,
    if_neg (by omega), if_neg (by rw [hlen]; omega), h0]
  simp [hslice, hdrop]

theorem deneb_payload_roundtrip (p : ExecutionPayloadDeneb) (hp : p.wellFormed) :
    ExecutionPayloadDeneb.from_ssz_bytes p.as_ssz_bytes = .ok p := by
  obtain ⟨hbn, hbgu, hebg, hed, hw, hoff⟩ := hp
  norm_num [denebFixedLen] at hbn hbgu hebg hoff
  have hlen : p.as_ssz_bytes.length = 32 + p.extra_data.length + p.withdrawals.length := by
    simp [ExecutionPayloadDeneb.as_ssz_bytes]; omega
  have h0 : readNat p.as_ssz_bytes 0 8 = p.block_number := by
    simp [ExecutionPayloadDeneb.as_ssz_bytes, List.append_assoc, readNat_encode]
    omega
  have h12 : readNat p.as_ssz_bytes 12 4 = 32 + p.extra_data.length := by
    simp [ExecutionPayloadDeneb.as_ssz_bytes, denebFixedLen, List.append_assoc,
      readNat_append_skip, readNat_encode]
    omega
  have h16 : readNat p.as_ssz_bytes 16 8 = p.blob_gas_used := by
    simp [ExecutionPayloadDeneb.as_ssz_bytes, denebFixedLen, List.append_assoc,
      readNat_append_skip, readNat_encode]
    omega
  have h24 : readNat p.as_ssz_bytes 24 8 = p.excess_blob_gas := by
    simp [ExecutionPayloadDeneb.as_ssz_bytes, denebFixedLen, List.append_assoc,
      readNat_append_skip, readNat_encode]
    omega
  have hgrp0 : p.as_ssz_bytes =
      (natToBytesLE 8 p.block_number ++ natToBytesLE 4 32 ++
        natToBytesLE 4 (32 + p.extra_data.length) ++ natToBytesLE 8 p.blob_gas_used ++
        natToBytesLE 8 p.excess_blob_gas) ++ (p.extra_data ++ p.withdrawals) := by
    simp [ExecutionPayloadDeneb.as_ssz_bytes, denebFixedLen, List.append_assoc]
  have hgrp1 : p.as_ssz_bytes =
      (natToBytesLE 8 p.block_number ++ natToBytesLE 4 32 ++
        natToBytesLE 4 (32 + p.extra_data.length) ++ natToBytesLE 8 p.blob_gas_used ++
        natToBytesLE 8 p.excess_blob_gas ++ p.extra_data) ++ p.withdrawals := by
    simp [ExecutionPayloadDeneb.as_ssz_bytes, denebFixedLen, List.append_assoc]
  have hslice : sliceL p.as_ssz_bytes 32 p.extra_data.length = p.extra_data := by
    rw [hgrp0]; unfold sliceL
    rw [List.drop_left' (by simp), List.take_left' rfl]
  have hdrop : p.as_ssz_bytes.drop (32 + p.extra_data.length) = p.withdrawals := by
    rw [hgrp1, List.drop_left' (by simp; omega)]
  unfold ExecutionPayloadDeneb.from_ssz_bytes
  simp only [denebFixedLen]
  rw [if_neg (by rw [hlen]; omega), if_neg (by rw [readNat8_deneb_encode]; omega), h12,
    if_neg (by omega), if_neg (by rw [hlen]; omega), h0, h16, h24]
  simp [hslice, hdrop]

theorem electra_payload_roundtrip (p : ExecutionPayloadElectra) (hp : p.wellFormed) :
    ExecutionPayloadElectra.from_ssz_bytes p.as_ssz_bytes = .ok p := by
  obtain ⟨hbn, hbgu, hebg, hed, hw, hdr, hoff⟩ := hp
  norm_num [electraFixedLen] at hbn hbgu hebg hoff
  have hlen : p.as_ssz_bytes.length =
      36 + p.extra_data.length + p.withdrawals.length + p.deposit_requests.length := by
    simp [ExecutionPayloadElectra.as_ssz_bytes]; omega
  have h0 : readNat p.as_ssz_bytes 0 8 = p.block_number := by
    simp [ExecutionPayloadElectra.as_ssz_bytes, List.append_assoc, readNat_encode]
    omega
  have h8 : readNat p.as_ssz_bytes 8 4 = 36 := by
    simp [ExecutionPayloadElectra.as_ssz_bytes, electraFixedLen, List.append_assoc,
      readNat_append_skip, readNat_encode]
  have h12 : readNat p.as_ssz_bytes 12 4 = 36 + p.extra_data.length := by
    simp [ExecutionPayloadElectra.as_ssz_bytes, electraFixedLen, List.append_assoc,
      readNat_append_skip, readNat_encode]
    omega
  have h16 : readNat p.as_ssz_bytes 16 8 = p.blob_gas_used := by
    simp [ExecutionPayloadElectra.as_ssz_bytes, electraFixedLen, List.append_assoc,
      readNat_append_skip, readNat_encode]
    omega
  have h24 : readNat p.as_ssz_bytes 24 8 = p.excess_blob_gas := by
    simp [ExecutionPayloadElectra.as_ssz_bytes, electraFixedLen, List.append_assoc,
      readNat_append_skip, readNat_encode]
    omega
  have h32 : readNat p.as_ssz_bytes 32 4 =
      36 + p.extra_data.length + p.withdrawals.length := by
    simp [ExecutionPayloadElectra.as_ssz_bytes, electraFixedLen, List.append_assoc,
      readNat_append_skip, readNat_encode]
    omega
  have hgrpA : p.as_ssz_bytes =
      (natToBytesLE 8 p.block_number ++ natToBytesLE 4 36 ++
        natToBytesLE 4 (36 + p.extra_data.length) ++ natToBytesLE 8 p.blob_gas_used ++
        natToBytesLE 8 p.excess_blob_gas ++
        natToBytesLE 4 (36 + p.extra_data.length + p.withdrawals.length)) ++
      (p.extra_data ++ (p.withdrawals ++ p.deposit_requests)) := by
    simp [ExecutionPayloadElectra.as_ssz_bytes, electraFixedLen, List.append_assoc]
  have hgrpB : p.as_ssz_bytes =
      (natToBytesLE 8 p.block_number ++ natToBytesLE 4 36 ++
        natToBytesLE 4 (36 + p.extra_data.length) ++ natToBytesLE 8 p.blob_gas_used ++
        natToBytesLE 8 p.excess_blob_gas ++
        natToBytesLE 4 (36 + p.extra_data.length + p.withdrawals.length) ++ p.extra_data) ++
      (p.withdrawals ++ p.deposit_requests) := by
    simp [ExecutionPayloadElectra.as_ssz_bytes, electraFixedLen, List.append_assoc]
  have hgrpC : p.as_ssz_bytes =
      (natToBytesLE 8 p.block_number ++ natToBytesLE 4 36 ++
        natToBytesLE 4 (36 + p.extra_data.length) ++ natToBytesLE 8 p.blob_gas_used ++
        natToBytesLE 8 p.excess_blob_gas ++
        natToBytesLE 4 (36 + p.extra_data.length + p.withdrawals.length) ++ p.extra_data ++
        p.withdrawals) ++ p.deposit_requests := by
    simp [ExecutionPayloadElectra.as_ssz_bytes, electraFixedLen, List.append_assoc]
  have hsliceE : sliceL p.as_ssz_bytes 36 p.extra_data.length = p.extra_data := by
    rw [hgrpA]; unfold sliceL
    rw [List.drop_left' (by simp), List.take_left' rfl]
  have hsliceW : sliceL p.as_ssz_bytes (36 + p.extra_data.length) p.withdrawals.length =
      p.withdrawals := by
    rw [hgrpB]; unfold sliceL
    rw [List.drop_left' (by simp; omega), List.take_left' rfl]
  have hdropD : p.as_ssz_bytes.drop (36 + p.extra_data.length + p.withdrawals.length) =
      p.deposit_requests := by
    rw [hgrpC, List.drop_left' (by simp; omega)]
  unfold ExecutionPayloadElectra.from_ssz_bytes
  simp only [electraFixedLen]
  rw [if_neg (by rw [hlen]; omega), if_neg (by rw [h8]; omega), h12, h32,
    if_neg (by omega), if_neg (by omega), if_neg (by rw [hlen]; omega), h0, h16, h24]
  simp [hsliceE, hsliceW, hdropD]

/-- A newer-generation structural decode always rejects older-generation
bytes: the first offset pins down the encoder's fixed-part length. -/
theorem electraDec_fails_on_capellaEnc (p : ExecutionPayloadCapella) :
    exceptIsOk (ExecutionPayloadElectra.from_ssz_bytes p.as_ssz_bytes) = false := by
  unfold ExecutionPayloadElectra.from_ssz_bytes
  simp only [electraFixedLen]
  by_cases hl : p.as_ssz_bytes.length < 36
  · rw [if_pos hl]; rfl
  · rw [if_neg hl, if_pos (by rw [readNat8_capella_encode]; omega)]; rfl

theorem electraDec_fails_on_denebEnc (p : ExecutionPayloadDeneb) :
    exceptIsOk (ExecutionPayloadElectra.from_ssz_bytes p.as_ssz_bytes) = false := by
  unfold ExecutionPayloadElectra.from_ssz_bytes
  simp only [electraFixedLen]
  by_cases hl : p.as_ssz_bytes.length < 36
  · rw [if_pos hl]; rfl
  · rw [if_neg hl, if_pos (by rw [readNat8_deneb_encode]; omega)]; rfl

theorem electraDec_fails_on_bellatrixEnc (p : ExecutionPayloadBellatrix) :
    exceptIsOk (ExecutionPayloadElectra.from_ssz_bytes p.as_ssz_bytes) = false := by
  unfold ExecutionPayloadElectra.from_ssz_bytes
  simp only [electraFixedLen]
  by_cases hl : p.as_ssz_bytes.length < 36
  · rw [if_pos hl]; rfl
  · rw [if_neg hl, if_pos (by rw [readNat8_bellatrix_encode]; omega)]; rfl

theorem denebDec_fails_on_capellaEnc (p : ExecutionPayloadCapella) :
    exceptIsOk (ExecutionPayloadDeneb.from_ssz_bytes p.as_ssz_bytes) = false := by
  unfold ExecutionPayloadDeneb.from_ssz_bytes
  simp only [denebFixedLen]
  by_cases hl : p.as_ssz_bytes.length < 32
  · rw [if_pos hl]; rfl
  · rw [if_neg hl, if_pos (by rw [readNat8_capella_encode]; omega)]; rfl

theorem denebDec_fails_on_bellatrixEnc (p : ExecutionPayloadBellatrix) :
    exceptIsOk (ExecutionPayloadDeneb.from_ssz_bytes p.as_ssz_bytes) = false := by
  unfold ExecutionPayloadDeneb.from_ssz_bytes
  simp only [denebFixedLen]
  by_cases hl : p.as_ssz_bytes.length < 32
  · rw [if_pos hl]; rfl
  · rw [if_neg hl, if_pos (by rw [readNat8_bellatrix_encode]; omega)]; rfl

theorem capellaDec_fails_on_bellatrixEnc (p : ExecutionPayloadBellatrix) :
    exceptIsOk (ExecutionPayloadCapella.from_ssz_bytes p.as_ssz_bytes) = false := by
  unfold ExecutionPayloadCapella.from_ssz_bytes
  simp only [capellaFixedLen]
  by_cases hl : p.as_ssz_bytes.length < 16
  · rw [if_pos hl]; rfl
  · rw [if_neg hl, if_pos (by rw [readNat8_bellatrix_encode]; omega)]; rfl

/-! ## Round-trip of the container layout -/

theorem length_encodeSubmitWith (m : BidTraceV1) (sig : Nat) (pb : List Nat) :
    (encodeSubmitWith m sig pb).length = 352 + pb.length := by
  simp [encodeSubmitWith, submitFixedLen]; omega

theorem drop_encodeSubmitWith (m : BidTraceV1) (sig : Nat) (pb : List Nat) :
    (encodeSubmitWith m sig pb).drop 352 = pb := by
  unfold encodeSubmitWith
  rw [List.drop_left' (by simp)]

theorem readNat252_encodeSubmitWith (m : BidTraceV1) (sig : Nat) (pb : List Nat) :
    readNat (encodeSubmitWith m sig pb) 252 4 = 352 := by
  simp [encodeSubmitWith, submitFixedLen, BidTraceV1.as_ssz_bytes, List.append_assoc,
    readNat_append_skip, readNat_encode]

theorem readNat256_encodeSubmitWith (m : BidTraceV1) (sig : Nat) (pb : List Nat)
    (hs : sig < 256 ^ 96) : readNat (encodeSubmitWith m sig pb) 256 96 = sig := by
  norm_num at hs
  simp [encodeSubmitWith, submitFixedLen, BidTraceV1.as_ssz_bytes, List.append_assoc,
    readNat_append_skip, readNat_encode]
  omega

theorem from_bytes_encodeSubmitWith (m : BidTraceV1) (sig : Nat) (pb : List Nat)
    (hm : m.wellFormed) : BidTraceV1.from_bytes (encodeSubmitWith m sig pb) = m := by
  obtain ⟨ms, mph, mbh, mbp, mpp, mfr, mgl, mgu, mv, mbn, mnt⟩ := m
  obtain ⟨h1, h2, h3, h4, h5, h6, h7, h8, h9, h10, h11⟩ := hm
  norm_num at h1 h2 h3 h4 h5 h6 h7 h8 h9 h10 h11
  unfold BidTraceV1.from_bytes
  simp [encodeSubmitWith, BidTraceV1.as_ssz_bytes, List.append_assoc,
    readNat_append_skip, readNat_encode, BidTraceV1.mk.injEq]
  omega

/-- Decode specification of the Bellatrix variant on abstract bytes whose
container-level checks pass. -/
theorem submitBellatrix_decode_ok (bytes : List Nat) (m : BidTraceV1) (sig : Nat)
    (p : ExecutionPayloadBellatrix)
    (h1 : ¬ bytes.length < 352) (h2 : readNat bytes 252 4 = 352)
    (hp : ExecutionPayloadBellatrix.from_ssz_bytes (bytes.drop 352) = .ok p)
    (hm : BidTraceV1.from_bytes bytes = m) (hs : readNat bytes 256 96 = sig) :
    SubmitBlockRequestBellatrix.from_ssz_bytes bytes = .ok ⟨m, p, sig⟩ := by
  unfold SubmitBlockRequestBellatrix.from_ssz_bytes
  simp only [submitFixedLen]
  rw [if_neg h1, if_neg (by rw [h2]; omega), hp]
  show Except.ok (SubmitBlockRequestBellatrix.mk (BidTraceV1.from_bytes bytes) p
    (readNat bytes 256 96)) = Except.ok (SubmitBlockRequestBellatrix.mk m p sig)
  rw [hm, hs]

/-- Decode specification of the Capella variant on abstract bytes whose
container-level checks pass. -/
theorem submitCapella_decode_ok (bytes : List Nat) (m : BidTraceV1) (sig : Nat)
    (p : ExecutionPayloadCapella)
    (h1 : ¬ bytes.length < 352) (h2 : readNat bytes 252 4 = 352)
    (hp : ExecutionPayloadCapella.from_ssz_bytes (bytes.drop 352) = .ok p)
    (hm : BidTraceV1.from_bytes bytes = m) (hs : readNat bytes 256 96 = sig) :
    SubmitBlockRequestCapella.from_ssz_bytes bytes = .ok ⟨m, p, sig⟩ := by
  unfold SubmitBlockRequestCapella.from_ssz_bytes
  simp only [submitFixedLen]
  rw [if_neg h1, if_neg (by rw [h2]; omega), hp]
  show Except.ok (SubmitBlockRequestCapella.mk (BidTraceV1.from_bytes bytes) p
    (readNat bytes 256 96)) = Except.ok (SubmitBlockRequestCapella.mk m p sig)
  rw [hm, hs]

/-- Decode specification of the Deneb variant on abstract bytes whose
container-level checks pass. -/
theorem submitDeneb_decode_ok (bytes : List Nat) (m : BidTraceV1) (sig : Nat)
    (p : ExecutionPayloadDeneb)
    (h1 : ¬ bytes.length < 352) (h2 : readNat bytes 252 4 = 352)
    (hp : ExecutionPayloadDeneb.from_ssz_bytes (bytes.drop 352) = .ok p)
    (hm : BidTraceV1.from_bytes bytes = m) (hs : readNat bytes 256 96 = sig) :
    SubmitBlockRequestDeneb.from_ssz_bytes bytes = .ok ⟨m, p, sig⟩ := by
  unfold SubmitBlockRequestDeneb.from_ssz_bytes
  simp only [submitFixedLen]
  rw [if_neg h1, if_neg (by rw [h2]; omega), hp]
  show Except.ok (SubmitBlockRequestDeneb.mk (BidTraceV1.from_bytes bytes) p
    (readNat bytes 256 96)) = Except.ok (SubmitBlockRequestDeneb.mk m p sig)
  rw [hm, hs]

/-- Decode specification of the Electra variant on abstract bytes whose
container-level checks pass. -/
theorem submitElectra_decode_ok (bytes : List Nat) (m : BidTraceV1) (sig : Nat)
    (p : ExecutionPayloadElectra)
    (h1 : ¬ bytes.length < 352) (h2 : readNat bytes 252 4 = 352)
    (hp : ExecutionPayloadElectra.from_ssz_bytes (bytes.drop 352) = .ok p)
    (hm : BidTraceV1.from_bytes bytes = m) (hs : readNat bytes 256 96 = sig) :
    SubmitBlockRequestElectra.from_ssz_bytes bytes = .ok ⟨m, p, sig⟩ := by
  unfold SubmitBlockRequestElectra.from_ssz_bytes
  simp only [submitFixedLen]
  rw [if_neg h1, if_neg (by rw [h2]; omega), hp]
  show Except.ok (SubmitBlockRequestElectra.mk (BidTraceV1.from_bytes bytes) p
    (readNat bytes 256 96)) = Except.ok (SubmitBlockRequestElectra.mk m p sig)
  rw [hm, hs]

/-- When the Electra payload decode rejects the payload region, the Electra
variant decode rejects the whole byte string. -/
theorem submitElectra_decode_err (bytes : List Nat) (e : DecodeError)
    (hp : ExecutionPayloadElectra.from_ssz_bytes (bytes.drop 352) = .error e) :
    exceptIsOk (SubmitBlockRequestElectra.from_ssz_bytes bytes) = false := by
  unfold SubmitBlockRequestElectra.from_ssz_bytes
  simp only [submitFixedLen]
  by_cases h1 : bytes.length < 352
  · rw [if_pos h1]; rfl
  · rw [if_neg h1]
    by_cases h2 : readNat bytes 252 4 ≠ 352
    · rw [if_pos h2]; rfl
    · rw [if_neg h2, hp]; rfl

/-- When the Deneb payload decode rejects the payload region, the Deneb
variant decode rejects the whole byte string. -/
theorem submitDeneb_decode_err (bytes : List Nat) (e : DecodeError)
    (hp : ExecutionPayloadDeneb.from_ssz_bytes (bytes.drop 352) = .error e) :
    exceptIsOk (SubmitBlockRequestDeneb.from_ssz_bytes bytes) = false := by
  unfold SubmitBlockRequestDeneb.from_ssz_bytes
  simp only [submitFixedLen]
  by_cases h1 : bytes.length < 352
  · rw [if_pos h1]; rfl
  · rw [if_neg h1]
    by_cases h2 : readNat bytes 252 4 ≠ 352
    · rw [if_pos h2]; rfl
    · rw [if_neg h2, hp]; rfl

/-- When the Capella payload decode rejects the payload region, the Capella
variant decode rejects the whole byte string. -/
theorem submitCapella_decode_err (bytes : List Nat) (e : DecodeError)
    (hp : ExecutionPayloadCapella.from_ssz_bytes (bytes.drop 352) = .error e) :
    exceptIsOk (SubmitBlockRequestCapella.from_ssz_bytes bytes) = false := by
  unfold SubmitBlockRequestCapella.from_ssz_bytes
  simp only [submitFixedLen]
  by_cases h1 : bytes.length < 352
  · rw [if_pos h1]; rfl
  · rw [if_neg h1]
    by_cases h2 : readNat bytes 252 4 ≠ 352
    · rw [if_pos h2]; rfl
    · rw [if_neg h2, hp]; rfl

theorem submitBellatrix_roundtrip (r : SubmitBlockRequestBellatrix) (h : r.wellFormed) :
    SubmitBlockRequestBellatrix.from_ssz_bytes r.as_ssz_bytes = .ok r := by
  obtain ⟨m, p, sg⟩ := r
  obtain ⟨hm, hs, hp⟩ := h
  have he : (SubmitBlockRequestBellatrix.mk m p sg).as_ssz_bytes =
      encodeSubmitWith m sg p.as_ssz_bytes := rfl
  rw [he]
  exact submitBellatrix_decode_ok _ m sg p
    (by rw [length_encodeSubmitWith]; omega)
    (readNat252_encodeSubmitWith m sg _)
    (by rw [drop_encodeSubmitWith]; exact bellatrix_payload_roundtrip _ hp)
    (from_bytes_encodeSubmitWith m sg _ hm)
    (readNat256_encodeSubmitWith m sg _ hs)

theorem submitCapella_roundtrip (r : SubmitBlockRequestCapella) (h : r.wellFormed) :
    SubmitBlockRequestCapella.from_ssz_bytes r.as_ssz_bytes = .ok r := by
  obtain ⟨m, p, sg⟩ := r
  obtain ⟨hm, hs, hp⟩ := h
  have he : (SubmitBlockRequestCapella.mk m p sg).as_ssz_bytes =
      encodeSubmitWith m sg p.as_ssz_bytes := rfl
  rw [he]
  exact submitCapella_decode_ok _ m sg p
    (by rw [length_encodeSubmitWith]; omega)
    (readNat252_encodeSubmitWith m sg _)
    (by rw [drop_encodeSubmitWith]; exact capella_payload_roundtrip _ hp)
    (from_bytes_encodeSubmitWith m sg _ hm)
    (readNat256_encodeSubmitWith m sg _ hs)

theorem submitDeneb_roundtrip (r : SubmitBlockRequestDeneb) (h : r.wellFormed) :
    SubmitBlockRequestDeneb.from_ssz_bytes r.as_ssz_bytes = .ok r := by
  obtain ⟨m, p, sg⟩ := r
  obtain ⟨hm, hs, hp⟩ := h
  have he : (SubmitBlockRequestDeneb.mk m p sg).as_ssz_bytes =
      encodeSubmitWith m sg p.as_ssz_bytes := rfl
  rw [he]
  exact submitDeneb_decode_ok _ m sg p
    (by rw [length_encodeSubmitWith]; omega)
    (readNat252_encodeSubmitWith m sg _)
    (by rw [drop_encodeSubmitWith]; exact deneb_payload_roundtrip _ hp)
    (from_bytes_encodeSubmitWith m sg _ hm)
    (readNat256_encodeSubmitWith m sg _ hs)

theorem submitElectra_roundtrip (r : SubmitBlockRequestElectra) (h : r.wellFormed) :
    SubmitBlockRequestElectra.from_ssz_bytes r.as_ssz_bytes = .ok r := by
  obtain ⟨m, p, sg⟩ := r
  obtain ⟨hm, hs, hp⟩ := h
  have he : (SubmitBlockRequestElectra.mk m p sg).as_ssz_bytes =
      encodeSubmitWith m sg p.as_ssz_bytes := rfl
  rw [he]
  exact submitElectra_decode_ok _ m sg p
    (by rw [length_encodeSubmitWith]; omega)
    (readNat252_encodeSubmitWith m sg _)
    (by rw [drop_encodeSubmitWith]; exact electra_payload_roundtrip _ hp)
    (from_bytes_encodeSubmitWith m sg _ hm)
    (readNat256_encodeSubmitWith m sg _ hs)

theorem submitElectraDec_fails_on_capellaEnc (r : SubmitBlockRequestCapella) :
    exceptIsOk (SubmitBlockRequestElectra.from_ssz_bytes r.as_ssz_bytes) = false := by
  obtain ⟨e, he⟩ := (exceptIsOk_false_iff _).1 (electraDec_fails_on_capellaEnc r.execution_payload)
  have hb : r.as_ssz_bytes = encodeSubmitWith r.message r.signature
      r.execution_payload.as_ssz_bytes := rfl
  refine submitElectra_decode_err _ e ?_
  rw [hb, drop_encodeSubmitWith]
  exact he

theorem submitElectraDec_fails_on_denebEnc (r : SubmitBlockRequestDeneb) :
    exceptIsOk (SubmitBlockRequestElectra.from_ssz_bytes r.as_ssz_bytes) = false := by
  obtain ⟨e, he⟩ := (exceptIsOk_false_iff _).1 (electraDec_fails_on_denebEnc r.execution_payload)
  have hb : r.as_ssz_bytes = encodeSubmitWith r.message r.signature
      r.execution_payload.as_ssz_bytes := rfl
  refine submitElectra_decode_err _ e ?_
  rw [hb, drop_encodeSubmitWith]
  exact he

theorem submitElectraDec_fails_on_bellatrixEnc (r : SubmitBlockRequestBellatrix) :
    exceptIsOk (SubmitBlockRequestElectra.from_ssz_bytes r.as_ssz_bytes) = false := by
  obtain ⟨e, he⟩ :=
    (exceptIsOk_false_iff _).1 (electraDec_fails_on_bellatrixEnc r.execution_payload)
  have hb : r.as_ssz_bytes = encodeSubmitWith r.message r.signature
      r.execution_payload.as_ssz_bytes := rfl
  refine submitElectra_decode_err _ e ?_
  rw [hb, drop_encodeSubmitWith]
  exact he

theorem submitDenebDec_fails_on_capellaEnc (r : SubmitBlockRequestCapella) :
    exceptIsOk (SubmitBlockRequestDeneb.from_ssz_bytes r.as_ssz_bytes) = false := by
  obtain ⟨e, he⟩ := (exceptIsOk_false_iff _).1 (denebDec_fails_on_capellaEnc r.execution_payload)
  have hb : r.as_ssz_bytes = encodeSubmitWith r.message r.signature
      r.execution_payload.as_ssz_bytes := rfl
  refine submitDeneb_decode_err _ e ?_
  rw [hb, drop_encodeSubmitWith]
  exact he

theorem submitDenebDec_fails_on_bellatrixEnc (r : SubmitBlockRequestBellatrix) :
    exceptIsOk (SubmitBlockRequestDeneb.from_ssz_bytes r.as_ssz_bytes) = false := by
  obtain ⟨e, he⟩ :=
    (exceptIsOk_false_iff _).1 (denebDec_fails_on_bellatrixEnc r.execution_payload)
  have hb : r.as_ssz_bytes = encodeSubmitWith r.message r.signature
      r.execution_payload.as_ssz_bytes := rfl
  refine submitDeneb_decode_err _ e ?_
  rw [hb, drop_encodeSubmitWith]
  exact he

theorem submitCapellaDec_fails_on_bellatrixEnc (r : SubmitBlockRequestBellatrix) :
    exceptIsOk (SubmitBlockRequestCapella.from_ssz_bytes r.as_ssz_bytes) = false := by
  obtain ⟨e, he⟩ :=
    (exceptIsOk_false_iff _).1 (capellaDec_fails_on_bellatrixEnc r.execution_payload)
  have hb : r.as_ssz_bytes = encodeSubmitWith r.message r.signature
      r.execution_payload.as_ssz_bytes := rfl
  refine submitCapella_decode_err _ e ?_
  rw [hb, drop_encodeSubmitWith]
  exact he

/-! ## Behaviour of the probing combinator -/

/-- If the Electra attempt succeeds, the probe returns it (first attempt). -/
theorem from_ssz_probe_electra (bytes : List Nat) (q : SubmitBlockRequestElectra)
    (hq : SubmitBlockRequestElectra.from_ssz_bytes bytes = .ok q) :
    SubmitBlockRequest.from_ssz_bytes bytes = .ok (.Electra q) := by
  unfold SubmitBlockRequest.from_ssz_bytes
  simp only [hq]

/-- If the Electra attempt fails and the Deneb attempt succeeds, the probe
returns the Deneb result. -/
theorem from_ssz_probe_deneb (bytes : List Nat) (q : SubmitBlockRequestDeneb)
    (hE : exceptIsOk (SubmitBlockRequestElectra.from_ssz_bytes bytes) = false)
    (hq : SubmitBlockRequestDeneb.from_ssz_bytes bytes = .ok q) :
    SubmitBlockRequest.from_ssz_bytes bytes = .ok (.Deneb q) := by
  obtain ⟨e1, he1⟩ := (exceptIsOk_false_iff _).1 hE
  unfold SubmitBlockRequest.from_ssz_bytes
  simp only [he1, hq]

/-- If the Electra and Deneb attempts fail and the Capella attempt succeeds,
the probe returns the Capella result. -/
theorem from_ssz_probe_capella (bytes : List Nat) (q : SubmitBlockRequestCapella)
    (hE : exceptIsOk (SubmitBlockRequestElectra.from_ssz_bytes bytes) = false)
    (hD : exceptIsOk (SubmitBlockRequestDeneb.from_ssz_bytes bytes) = false)
    (hq : SubmitBlockRequestCapella.from_ssz_bytes bytes = .ok q) :
    SubmitBlockRequest.from_ssz_bytes bytes = .ok (.Capella q) := by
  obtain ⟨e1, he1⟩ := (exceptIsOk_false_iff _).1 hE
  obtain ⟨e2, he2⟩ := (exceptIsOk_false_iff _).1 hD
  unfold SubmitBlockRequest.from_ssz_bytes
  simp only [he1, he2, hq]

/-- If the three newer attempts fail and the Bellatrix attempt succeeds, the
probe returns the Bellatrix result. -/
theorem from_ssz_probe_bellatrix (bytes : List Nat) (q : SubmitBlockRequestBellatrix)
    (hE : exceptIsOk (SubmitBlockRequestElectra.from_ssz_bytes bytes) = false)
    (hD : exceptIsOk (SubmitBlockRequestDeneb.from_ssz_bytes bytes) = false)
    (hC : exceptIsOk (SubmitBlockRequestCapella.from_ssz_bytes bytes) = false)
    (hq : SubmitBlockRequestBellatrix.from_ssz_bytes bytes = .ok q) :
    SubmitBlockRequest.from_ssz_bytes bytes = .ok (.Bellatrix q) := by
  obtain ⟨e1, he1⟩ := (exceptIsOk_false_iff _).1 hE
  obtain ⟨e2, he2⟩ := (exceptIsOk_false_iff _).1 hD
  obtain ⟨e3, he3⟩ := (exceptIsOk_false_iff _).1 hC
  unfold SubmitBlockRequest.from_ssz_bytes
  simp only [he1, he2, he3, hq]

/-- If all four attempts fail, the probe surfaces the Bellatrix error. -/
theorem from_ssz_probe_all_fail (bytes : List Nat) (e : DecodeError)
    (hE : exceptIsOk (SubmitBlockRequestElectra.from_ssz_bytes bytes) = false)
    (hD : exceptIsOk (SubmitBlockRequestDeneb.from_ssz_bytes bytes) = false)
    (hC : exceptIsOk (SubmitBlockRequestCapella.from_ssz_bytes bytes) = false)
    (hB : SubmitBlockRequestBellatrix.from_ssz_bytes bytes = .error e) :
    SubmitBlockRequest.from_ssz_bytes bytes = .error e := by
  obtain ⟨e1, he1⟩ := (exceptIsOk_false_iff _).1 hE
  obtain ⟨e2, he2⟩ := (exceptIsOk_false_iff _).1 hD
  obtain ⟨e3, he3⟩ := (exceptIsOk_false_iff _).1 hC
  unfold SubmitBlockRequest.from_ssz_bytes
  simp only [he1, he2, he3, hB]

/-! ## Response types common (src/relay-api-types/src/lib.rs) -/

/-- `ErrorResponse`: numeric code (a `u16` in the source), human-readable
message, optional diagnostics list (skipped during serialization when
absent). -/
structure ErrorResponse where
  code : Nat
  message : String
  stacktraces : Option (List String)
deriving DecidableEq

/-- `Response<T>`: success payload or structured error. -/
inductive Response (T : Type) where
  | Success (body : T)
  | Error (body : ErrorResponse)
deriving DecidableEq

/-- Modelled from the spec: JSON string escaping of the textual serializer
(external `serde_json`), restricted to the quote and backslash escapes. -/
def jsonEscape (s : String) : String :=
  String.join (s.toList.map fun c =>
    if c = '"' then "\\\"" else if c = '\\' then "\\\\" else String.singleton c)

/-- Comma-separated concatenation. -/
def joinComma : List String → String
  | [] => ""
  | [s] => s
  | s :: rest => s ++ "," ++ joinComma rest

/-- Modelled from the spec: textual (JSON) serialization of `ErrorResponse`
by the external `serde_json` crate — fields in declaration order, `code` as a
bare number, `message` as a string, and the `stacktraces` field omitted when
absent (`serde(skip_serializing_if = "Option::is_none")` in the source). -/
def ErrorResponse.toJson (e : ErrorResponse) : String :=
  "\x7b\"code\":" ++ toString e.code ++ ",\"message\":\"" ++ jsonEscape e.message ++ "\"" ++
  (match e.stacktraces with
   | none => ""
   | some l =>
     ",\"stacktraces\":[" ++ joinComma (l.map fun s => "\"" ++ jsonEscape s ++ "\"") ++ "]") ++
  "\x7d"

/-- `serde_json::to_vec` on an `ErrorResponse` (it cannot fail on this
shape: no non-string map keys are involved). -/
def serializeErrorBody (e : ErrorResponse) : Option String :=
  some e.toJson

/-! ## Result encoder (src/relay-server/src/server.rs, `build_response`) -/

/-- A wire response: status code, optional `Content-Type` header, body. -/
structure HttpResponse where
  status : Nat
  contentType : Option String
  body : String
deriving DecidableEq

/-- Modelled from the spec: `http::HeaderValue::from_str` of the external
`http` crate accepts exactly the strings made of visible ASCII characters
(and tab). -/
def headerValueFromStr (s : String) : Option String :=
  if s.toList.all (fun c => (32 ≤ c.toNat && c.toNat < 127) || c.toNat = 9) then some s
  else none

/-- `build_response`, translated from src/relay-server/src/server.rs:51-121.
The two external fallible calls are taken as parameters: `hv` models
`HeaderValue::from_str` and `ser` models `serde_json::to_vec` for the success
payload type (the error-arm serialization is `serializeErrorBody`).  A
`.error c` result models the Rust `Err(StatusCode)` (`c = 500` for
`INTERNAL_SERVER_ERROR`).  Statuses are taken verbatim per the spec ("not
validated against the HTTP status space"). -/
def build_response {T : Type} (hv : String → Option String) (ser : T → Option String) :
    Response T → Except Nat HttpResponse
  | .Success body =>
    match hv "application/json" with
    | none => .error 500
    | some ct =>
      match ser body with
      | none => .error 500
      | some content => .ok { status := 200, contentType := some ct, body := content }
  | .Error body =>
    match hv "application/json" with
    | none => .error 500
    | some ct =>
      match serializeErrorBody body with
      | none => .error 500
      | some content => .ok { status := body.code, contentType := some ct, body := content }

/-- Modelled from the spec: axum turns a handler's `Err(StatusCode)` (and a
rejection built from a bare `StatusCode`) into a response with that status
and an empty body. -/
def statusIntoResponse (code : Nat) : HttpResponse :=
  { status := code, contentType := none, body := "" }

/-! ## Content negotiator (src/relay-server/src/server.rs, `Ssz` and
`JsonOrSsz` extractors) -/

/-- An inbound request as the negotiator sees it: the raw bytes of the
`Content-Type` header when present, and the body bytes. -/
structure HttpRequest where
  contentType : Option (List Nat)
  body : List Nat
deriving DecidableEq

/-- The ASCII bytes of a string literal. -/
def asciiOf (s : String) : List Nat :=
  s.toList.map Char.toNat

/-- Modelled from the spec: `HeaderValue::to_str` of the external `http`
crate succeeds exactly when every byte is visible ASCII (or tab); the header
is then read as that byte sequence. -/
def headerValueToStr (bs : List Nat) : Option (List Nat) :=
  if bs.all (fun b => (32 ≤ b && b < 127) || b = 9) then some bs else none

/-- `Ssz::from_request`, translated from src/relay-server/src/server.rs:200-225:
read the `Content-Type` header as text; on an `application/octet-stream`
prefix decode the body with the SSZ decoder `sszDec` (a `BAD_REQUEST`
rejection on decode failure); otherwise reject with
`UNSUPPORTED_MEDIA_TYPE`. -/
def Ssz.from_request {T : Type} (sszDec : List Nat → Except DecodeError T)
    (req : HttpRequest) : Except HttpResponse T :=
  match req.contentType.bind headerValueToStr with
  | some ct =>
    if (asciiOf "application/octet-stream").isPrefixOf ct then
      match sszDec req.body with
      | .ok v => .ok v
      | .error _ => .error (statusIntoResponse 400)
    else .error (statusIntoResponse 415)
  | none => .error (statusIntoResponse 415)

/-- `JsonOrSsz::from_request`, translated from
src/relay-server/src/server.rs:231-257: route on the `Content-Type` prefix —
`application/json` to the textual decoder `jsonDec` (modelling the axum
`Json` extractor, whose rejection is returned as-is), `application/octet-stream`
to the `Ssz` extractor, anything else (including an absent or unreadable
header) to an `UNSUPPORTED_MEDIA_TYPE` rejection. -/
def JsonOrSsz.from_request {T : Type} (jsonDec : List Nat → Except HttpResponse T)
    (sszDec : List Nat → Except DecodeError T) (req : HttpRequest) : Except HttpResponse T :=
  match req.contentType.bind headerValueToStr with
  | some ct =>
    if (asciiOf "application/json").isPrefixOf ct then jsonDec req.body
    else if (asciiOf "application/octet-stream").isPrefixOf ct then
      Ssz.from_request sszDec req
    else .error (statusIntoResponse 415)
  | none => .error (statusIntoResponse 415)

/-! ## Textual (JSON) untagged decode of `SubmitBlockRequest`

Modelled from the spec: the serde machinery is external; per the spec the
textual decoder "must attempt each schema generation's textual field layout
and accept the first one whose required fields are all present and whose
types match, with `deny_unknown_fields` semantics disabled at the union level
(unknown/extra fields from a different generation do not by themselves
disqualify a match)".  The attempt order is the variant declaration order of
the `superstruct` in src/relay-api-types/src/lib.rs (Bellatrix, Capella,
Deneb, Electra).  At the variant's top level `deny_unknown_fields` is active
(`variant_attributes` in the source), so only the three declared fields may
appear there. -/

/-- A JSON value (only the shapes this API serializes). -/
inductive Json where
  | str (s : String)
  | num (n : Int)
  | arr (elems : List Json)
  | obj (fields : List (String × Json))

/-- The four schema generations, oldest first. -/
inductive Generation where
  | Bellatrix
  | Capella
  | Deneb
  | Electra
deriving DecidableEq

/-- First value bound to `key` in a JSON object's field list. -/
def lookupField : List (String × Json) → String → Option Json
  | [], _ => none
  | (k, v) :: rest, key => if k = key then some v else lookupField rest key

/-- Shape of a required textual field. -/
inductive FieldShape where
  | quotedNum
  | hexStr
  | objShape
  | arrShape
deriving DecidableEq

/-- Type check of one field value against its declared shape. -/
def checkShape : FieldShape → Json → Bool
  | .quotedNum, .str s => !s.isEmpty && s.toList.all Char.isDigit
  | .hexStr, .str s => s.toList.take 2 = ['0', 'x']
  | .objShape, .obj _ => true
  | .arrShape, .arr _ => true
  | _, _ => false

/-- The required textual fields of each generation's execution payload
(each newer generation adds fields to the previous one). -/
def payloadRequiredFields : Generation → List (String × FieldShape)
  | .Bellatrix => [("block_number", .quotedNum), ("extra_data", .hexStr)]
  | .Capella => [("block_number", .quotedNum), ("extra_data", .hexStr),
      ("withdrawals", .arrShape)]
  | .Deneb => [("block_number", .quotedNum), ("extra_data", .hexStr),
      ("withdrawals", .arrShape), ("blob_gas_used", .quotedNum),
      ("excess_blob_gas", .quotedNum)]
  | .Electra => [("block_number", .quotedNum), ("extra_data", .hexStr),
      ("withdrawals", .arrShape), ("blob_gas_used", .quotedNum),
      ("excess_blob_gas", .quotedNum), ("deposit_requests", .arrShape)]

/-- The required textual fields of the `BidTraceV1` record
(src/relay-api-types/src/lib.rs:121-138; quoted integers per the
`serde_utils` attributes). -/
def bidTraceRequiredFields : List (String × FieldShape) :=
  [("slot", .quotedNum), ("parent_hash", .hexStr), ("block_hash", .hexStr),
   ("builder_pubkey", .hexStr), ("proposer_pubkey", .hexStr),
   ("proposer_fee_recipient", .hexStr), ("gas_limit", .quotedNum),
   ("gas_used", .quotedNum), ("value", .quotedNum), ("block_number", .quotedNum),
   ("num_tx", .quotedNum)]

/-- All required fields are present with matching shapes (extra fields are
ignored: `BidTraceV1` and the payload types do not deny unknown fields). -/
def fieldsMatch (required : List (String × FieldShape)) (fields : List (String × Json)) : Bool :=
  required.all fun rq =>
    match lookupField fields rq.1 with
    | some v => checkShape rq.2 v
    | none => false

/-- The execution payload object matches generation `g`'s field layout. -/
def payloadMatches (g : Generation) : Json → Bool
  | .obj fields => fieldsMatch (payloadRequiredFields g) fields
  | _ => false

/-- The trace record object matches `BidTraceV1`'s field layout. -/
def bidTraceMatches : Json → Bool
  | .obj fields => fieldsMatch bidTraceRequiredFields fields
  | _ => false

/-- The whole submission body matches generation `g`: exactly the three
declared top-level fields (the variant has `deny_unknown_fields`), a matching
trace record, a payload matching `g`, and a signature string. -/
def requestMatches (g : Generation) : Json → Bool
  | .obj fields =>
    fields.all (fun f => f.1 = "message" || f.1 = "execution_payload" || f.1 = "signature") &&
    (match lookupField fields "message" with
     | some m => bidTraceMatches m
     | none => false) &&
    (match lookupField fields "execution_payload" with
     | some p => payloadMatches g p
     | none => false) &&
    (match lookupField fields "signature" with
     | some s => checkShape .hexStr s
     | none => false)
  | _ => false

/-- The untagged textual decode: the first generation, in variant declaration
order, whose field layout matches; `none` models a serde `DecodeError` (no
variant matched). -/
def SubmitBlockRequest.jsonMatch (j : Json) : Option Generation :=
  if requestMatches .Bellatrix j then some .Bellatrix
  else if requestMatches .Capella j then some .Capella
  else if requestMatches .Deneb j then some .Deneb
  else if requestMatches .Electra j then some .Electra
  else none

/-! ## Claim theorems -/

set_option maxRecDepth 200000

/-- C1: the untagged binary decoder attempts the generations strictly in the
order Electra, Deneb, Capella, Bellatrix, and returns the first generation
whose structural decode succeeds, tagged as that generation; bytes that only
a non-newest generation accepts resolve to that generation whenever every
newer generation's decode fails. -/
theorem submit_ssz_probe_order (bytes : List Nat) :
    (∀ q, SubmitBlockRequestElectra.from_ssz_bytes bytes = .ok q →
      SubmitBlockRequest.from_ssz_bytes bytes = .ok (.Electra q)) ∧
    (exceptIsOk (SubmitBlockRequestElectra.from_ssz_bytes bytes) = false →
      ∀ q, SubmitBlockRequestDeneb.from_ssz_bytes bytes = .ok q →
        SubmitBlockRequest.from_ssz_bytes bytes = .ok (.Deneb q)) ∧
    (exceptIsOk (SubmitBlockRequestElectra.from_ssz_bytes bytes) = false →
      exceptIsOk (SubmitBlockRequestDeneb.from_ssz_bytes bytes) = false →
      ∀ q, SubmitBlockRequestCapella.from_ssz_bytes bytes = .ok q →
        SubmitBlockRequest.from_ssz_bytes bytes = .ok (.Capella q)) ∧
    (exceptIsOk (SubmitBlockRequestElectra.from_ssz_bytes bytes) = false →
      exceptIsOk (SubmitBlockRequestDeneb.from_ssz_bytes bytes) = false →
      exceptIsOk (SubmitBlockRequestCapella.from_ssz_bytes bytes) = false →
      ∀ q, SubmitBlockRequestBellatrix.from_ssz_bytes bytes = .ok q →
        SubmitBlockRequest.from_ssz_bytes bytes = .ok (.Bellatrix q)) :=
  ⟨fun q hq => from_ssz_probe_electra bytes q hq,
   fun hE q hq => from_ssz_probe_deneb bytes q hE hq,
   fun hE hD q hq => from_ssz_probe_capella bytes q hE hD hq,
   fun hE hD hC q hq => from_ssz_probe_bellatrix bytes q hE hD hC hq⟩

/-- The all-zero trace record used by concrete witnesses. -/
def witnessTrace : BidTraceV1 := ⟨0, 0, 0, 0, 0, 0, 0, 0, 0, 0, 0⟩

/-- A concrete Capella-generation request. -/
def capellaWitnessReq : SubmitBlockRequestCapella := ⟨witnessTrace, ⟨0, [], []⟩, 0⟩

/-- Witness for C1: the SSZ encoding of a Capella value fails the Electra and
Deneb attempts and resolves to Capella. -/
theorem submit_ssz_probe_order_witness :
    SubmitBlockRequest.from_ssz_bytes capellaWitnessReq.as_ssz_bytes =
      .ok (.Capella capellaWitnessReq) :=
  (submit_ssz_probe_order capellaWitnessReq.as_ssz_bytes).2.2.1 (by decide) (by decide)
    capellaWitnessReq (by decide)

/-- C4: when all four generation attempts fail, the decoder's error is
exactly the Bellatrix (oldest) attempt's error, not a synthetic one. -/
theorem submit_ssz_all_fail_error (bytes : List Nat) (e : DecodeError)
    (hE : exceptIsOk (SubmitBlockRequestElectra.from_ssz_bytes bytes) = false)
    (hD : exceptIsOk (SubmitBlockRequestDeneb.from_ssz_bytes bytes) = false)
    (hC : exceptIsOk (SubmitBlockRequestCapella.from_ssz_bytes bytes) = false)
    (hB : SubmitBlockRequestBellatrix.from_ssz_bytes bytes = .error e) :
    SubmitBlockRequest.from_ssz_bytes bytes = .error e :=
  from_ssz_probe_all_fail bytes e hE hD hC hB

/-- Witness for C4: the empty byte string fails all four attempts and
surfaces the Bellatrix length error. -/
theorem submit_ssz_all_fail_error_witness :
    SubmitBlockRequest.from_ssz_bytes [] = .error (.invalidByteLength 0 352) :=
  submit_ssz_all_fail_error [] (.invalidByteLength 0 352) (by decide) (by decide) (by decide)
    (by decide)

/-- C5: encoding a well-formed value of any generation with the binary format
and probing the bytes returns the original value under its own generation
tag. -/
theorem submit_ssz_roundtrip (r : SubmitBlockRequest) (h : r.wellFormed) :
    SubmitBlockRequest.from_ssz_bytes r.as_ssz_bytes = .ok r := by
  cases r with
  | Bellatrix q =>
    simp only [SubmitBlockRequest.wellFormed] at h
    show SubmitBlockRequest.from_ssz_bytes q.as_ssz_bytes = .ok (.Bellatrix q)
    exact from_ssz_probe_bellatrix _ q (submitElectraDec_fails_on_bellatrixEnc q)
      (submitDenebDec_fails_on_bellatrixEnc q) (submitCapellaDec_fails_on_bellatrixEnc q)
      (submitBellatrix_roundtrip q h)
  | Capella q =>
    simp only [SubmitBlockRequest.wellFormed] at h
    show SubmitBlockRequest.from_ssz_bytes q.as_ssz_bytes = .ok (.Capella q)
    exact from_ssz_probe_capella _ q (submitElectraDec_fails_on_capellaEnc q)
      (submitDenebDec_fails_on_capellaEnc q) (submitCapella_roundtrip q h)
  | Deneb q =>
    simp only [SubmitBlockRequest.wellFormed] at h
    show SubmitBlockRequest.from_ssz_bytes q.as_ssz_bytes = .ok (.Deneb q)
    exact from_ssz_probe_deneb _ q (submitElectraDec_fails_on_denebEnc q)
      (submitDeneb_roundtrip q h)
  | Electra q =>
    simp only [SubmitBlockRequest.wellFormed] at h
    show SubmitBlockRequest.from_ssz_bytes q.as_ssz_bytes = .ok (.Electra q)
    exact from_ssz_probe_electra _ q (submitElectra_roundtrip q h)

/-- A concrete Deneb-generation request. -/
def denebWitnessReq : SubmitBlockRequest :=
  .Deneb ⟨witnessTrace, ⟨3, [7], [9], 1, 2⟩, 5⟩

/-- Witness for C5: a concrete well-formed Deneb value round-trips to itself
under the Deneb tag. -/
theorem submit_ssz_roundtrip_witness :
    denebWitnessReq.wellFormed ∧
    SubmitBlockRequest.from_ssz_bytes denebWitnessReq.as_ssz_bytes = .ok denebWitnessReq :=
  ⟨by decide, submit_ssz_roundtrip denebWitnessReq (by decide)⟩

/-- C2: on the success arm the encoder yields status 200 and the serialized
payload; on the error arm it takes the status verbatim from the error's code
and serializes the error structure, omitting absent diagnostics; both arms
carry `Content-Type: application/json`.  In particular the 404 "not found"
error yields status 404 and the two-field JSON body. -/
theorem build_response_spec {T : Type} (ser : T → Option String) :
    (∀ b s, ser b = some s →
      build_response headerValueFromStr ser (.Success b) =
        .ok ⟨200, some "application/json", s⟩) ∧
    (∀ e : ErrorResponse,
      build_response headerValueFromStr ser (.Error e) =
        .ok ⟨e.code, some "application/json", e.toJson⟩) ∧
    build_response headerValueFromStr ser (.Error ⟨404, "not found", none⟩) =
      .ok ⟨404, some "application/json",
        "\x7b\"code\":404,\"message\":\"not found\"\x7d"⟩ := by
  have hct : headerValueFromStr "application/json" = some "application/json" := by decide
  refine ⟨fun b s hs => ?_, fun e => ?_, ?_⟩
  · unfold build_response
    simp only [hct, hs]
  · unfold build_response
    simp only [hct, serializeErrorBody]
  · unfold build_response
    simp only [hct, serializeErrorBody]
    have hjson : ErrorResponse.toJson ⟨404, "not found", none⟩ =
        "\x7b\"code\":404,\"message\":\"not found\"\x7d" := by decide
    rw [hjson]

/-- Witness for C2: both arms applied at concrete values. -/
theorem build_response_spec_witness :
    build_response headerValueFromStr (fun n : Nat => some (toString n)) (.Success 7) =
      .ok ⟨200, some "application/json", "7"⟩ ∧
    build_response headerValueFromStr (fun n : Nat => some (toString n))
        (.Error ⟨404, "not found", none⟩) =
      .ok ⟨404, some "application/json",
        "\x7b\"code\":404,\"message\":\"not found\"\x7d"⟩ :=
  ⟨(build_response_spec (fun n : Nat => some (toString n))).1 7 "7" rfl,
   (build_response_spec (fun n : Nat => some (toString n))).2.2⟩

/-- C8: a failure of either external encoding step — constructing the
`application/json` header value or serializing the success body — makes the
encoder return the generic server error 500 for that request. -/
theorem build_response_encode_failure {T : Type} (hv : String → Option String)
    (ser : T → Option String) :
    (hv "application/json" = none →
      ∀ res : Response T, build_response hv ser res = .error 500) ∧
    (∀ b, ser b = none → build_response hv ser (.Success b) = .error 500) := by
  constructor
  · intro h res
    cases res <;> · unfold build_response; simp only [h]
  · intro b hb
    unfold build_response
    cases hhv : hv "application/json" <;> simp only [hb]

/-- Witness for C8: a failing header constructor and a failing serializer
each force a 500. -/
theorem build_response_encode_failure_witness :
    build_response (fun _ => none) (fun n : Nat => some (toString n)) (.Success 3) =
      .error 500 ∧
    build_response headerValueFromStr (fun _ : Nat => none) (.Success 3) = .error 500 :=
  ⟨(build_response_encode_failure (fun _ => none) (fun n : Nat => some (toString n))).1
      rfl (.Success 3),
   (build_response_encode_failure headerValueFromStr (fun _ : Nat => none)).2 3 rfl⟩

/-- C3: the submission endpoint's negotiator routes `application/json`-prefixed
content types to the textual decoder and `application/octet-stream`-prefixed
ones to the SSZ decoder (a 400 rejection on SSZ failure); an absent,
unreadable or unrecognized `Content-Type` yields a 415 rejection for every
decoder pair and body, so no decode is attempted. -/
theorem jsonOrSsz_content_negotiation {T : Type} (jsonDec : List Nat → Except HttpResponse T)
    (sszDec : List Nat → Except DecodeError T) (req : HttpRequest) :
    (∀ ct, req.contentType.bind headerValueToStr = some ct →
      (asciiOf "application/json").isPrefixOf ct = true →
      JsonOrSsz.from_request jsonDec sszDec req = jsonDec req.body) ∧
    (∀ ct, req.contentType.bind headerValueToStr = some ct →
      (asciiOf "application/json").isPrefixOf ct = false →
      (asciiOf "application/octet-stream").isPrefixOf ct = true →
      JsonOrSsz.from_request jsonDec sszDec req =
        match sszDec req.body with
        | .ok v => .ok v
        | .error _ => .error (statusIntoResponse 400)) ∧
    ((req.contentType.bind headerValueToStr = none ∨
      ∃ ct, req.contentType.bind headerValueToStr = some ct ∧
        (asciiOf "application/json").isPrefixOf ct = false ∧
        (asciiOf "application/octet-stream").isPrefixOf ct = false) →
      JsonOrSsz.from_request jsonDec sszDec req = .error (statusIntoResponse 415)) := by
  refine ⟨fun ct hct hjson => ?_, fun ct hct hjson hoctet => ?_, fun h => ?_⟩
  · unfold JsonOrSsz.from_request
    simp only [hct, hjson, if_true]
  · unfold JsonOrSsz.from_request Ssz.from_request
    simp only [hct, hjson, hoctet]
    simp
  · rcases h with h | ⟨ct, hct, hjson, hoctet⟩
    · unfold JsonOrSsz.from_request
      simp only [h]
    · unfold JsonOrSsz.from_request
      simp only [hct, hjson, hoctet]
      simp

/-- A textual decoder instance used by concrete witnesses. -/
def jd0 : List Nat → Except HttpResponse Nat := fun _ => .ok 7

/-- A binary decoder instance used by concrete witnesses. -/
def sd0 : List Nat → Except DecodeError Nat := fun _ => .error (.invalidByteLength 0 352)

/-- A request with a JSON content type. -/
def reqJson : HttpRequest := ⟨some (asciiOf "application/json"), [1, 2]⟩

/-- A request with an unsupported content type. -/
def reqPlain : HttpRequest := ⟨some (asciiOf "text/plain"), [1, 2]⟩

/-- Witness for C3: a JSON-typed request reaches the textual decoder; a
`text/plain` request is rejected with 415. -/
theorem jsonOrSsz_content_negotiation_witness :
    JsonOrSsz.from_request jd0 sd0 reqJson = .ok 7 ∧
    JsonOrSsz.from_request jd0 sd0 reqPlain = .error (statusIntoResponse 415) :=
  ⟨(jsonOrSsz_content_negotiation jd0 sd0 reqJson).1 (asciiOf "application/json")
      (by decide) (by decide),
   (jsonOrSsz_content_negotiation jd0 sd0 reqPlain).2.2
      (.inr ⟨asciiOf "text/plain", by decide, by decide, by decide⟩)⟩

/-- C10: a present `Content-Type` header whose value is not readable as a
visible-ASCII string is treated exactly like an absent header — the request
is rejected with 415 and neither decoder sees the body. -/
theorem jsonOrSsz_invalid_header_as_absent {T : Type}
    (jsonDec : List Nat → Except HttpResponse T)
    (sszDec : List Nat → Except DecodeError T) (hv body : List Nat)
    (h : hv.all (fun b => (32 ≤ b && b < 127) || b = 9) = false) :
    JsonOrSsz.from_request jsonDec sszDec ⟨some hv, body⟩ =
      JsonOrSsz.from_request jsonDec sszDec ⟨none, body⟩ ∧
    JsonOrSsz.from_request jsonDec sszDec ⟨some hv, body⟩ =
      .error (statusIntoResponse 415) := by
  have hts : headerValueToStr hv = none := by
    unfold headerValueToStr
    simp [h]
  constructor <;> · unfold JsonOrSsz.from_request; simp [hts]

/-- Witness for C10: a header containing the byte 0 is rejected with 415 as
if absent. -/
theorem jsonOrSsz_invalid_header_witness :
    JsonOrSsz.from_request jd0 sd0 ⟨some [0], [5]⟩ =
      JsonOrSsz.from_request jd0 sd0 ⟨none, [5]⟩ ∧
    JsonOrSsz.from_request jd0 sd0 ⟨some [0], [5]⟩ = .error (statusIntoResponse 415) :=
  jsonOrSsz_invalid_header_as_absent jd0 sd0 [0] [5] (by decide)

/-- A complete textual trace record used by the JSON examples. -/
def bidTraceJsonW : Json :=
  .obj [("slot", .str "1"), ("parent_hash", .str "0x00"), ("block_hash", .str "0x00"),
    ("builder_pubkey", .str "0x00"), ("proposer_pubkey", .str "0x00"),
    ("proposer_fee_recipient", .str "0x00"), ("gas_limit", .str "1"),
    ("gas_used", .str "1"), ("value", .str "1"), ("block_number", .str "1"),
    ("num_tx", .str "1")]

/-- A payload carrying Bellatrix's required fields plus the Deneb-only
`blob_gas_used` field. -/
def mixedPayloadJson : Json :=
  .obj [("block_number", .str "1"), ("extra_data", .str "0x"),
    ("blob_gas_used", .str "2")]

/-- A submission whose payload mixes Bellatrix and Deneb fields. -/
def mixedSubmissionJson : Json :=
  .obj [("message", bidTraceJsonW), ("execution_payload", mixedPayloadJson),
    ("signature", .str "0x00")]

/-- C6 counterexample: a body holding one generation's required fields plus a
field of a different generation does NOT fail — it decodes, silently ignoring
the extra field (here as Bellatrix, the first matching variant in declaration
order), because unknown payload fields do not disqualify a variant. -/
theorem mixed_generation_fields_decode_succeeds :
    SubmitBlockRequest.jsonMatch mixedSubmissionJson = some .Bellatrix := by decide

/-- C6 (amended): the untagged textual decode fails exactly when no
generation's required field layout is fully present; a mixed body is rejected
only when the mix leaves every generation's required field set incomplete. -/
theorem jsonMatch_none_iff (j : Json) :
    SubmitBlockRequest.jsonMatch j = none ↔ ∀ g, requestMatches g j = false := by
  constructor
  · intro h g
    unfold SubmitBlockRequest.jsonMatch at h
    by_cases hB : requestMatches .Bellatrix j = true
    · simp [hB] at h
    · by_cases hC : requestMatches .Capella j = true
      · simp [hB, hC] at h
      · by_cases hD : requestMatches .Deneb j = true
        · simp [hB, hC, hD] at h
        · by_cases hE2 : requestMatches .Electra j = true
          · simp [hB, hC, hD, hE2] at h
          · cases g
            · simpa using hB
            · simpa using hC
            · simpa using hD
            · simpa using hE2
  · intro h
    unfold SubmitBlockRequest.jsonMatch
    simp [h .Bellatrix, h .Capella, h .Deneb, h .Electra]

/-- A submission whose payload mixes generations and completes none of them
(withdrawals without extra_data). -/
def incompleteMixedJson : Json :=
  .obj [("message", bidTraceJsonW),
    ("execution_payload", .obj [("block_number", .str "1"), ("withdrawals", .arr [])]),
    ("signature", .str "0x00")]

/-- Witness for C6 (amended): the incomplete mixed body matches no generation
and the decode fails. -/
theorem jsonMatch_none_iff_witness :
    SubmitBlockRequest.jsonMatch incompleteMixedJson = none :=
  (jsonMatch_none_iff incompleteMixedJson).mpr (fun g => by cases g <;> decide)

/-- C7 counterexample: the negotiation-failure path emits a bare 415 response
whose body is empty — not a structured error body carrying a code and a
message. -/
theorem unsupported_media_rejection_empty_body :
    JsonOrSsz.from_request jd0 sd0 reqPlain = .error (statusIntoResponse 415) ∧
    (statusIntoResponse 415).body = "" ∧ (statusIntoResponse 415).contentType = none := by
  refine ⟨?_, rfl, rfl⟩
  unfold JsonOrSsz.from_request
  decide

/-- C7 (amended): negotiation and binary-decode failures yield bare
status-only responses with empty bodies (415 and 400), a failing serializer
yields the handler-level 500, and only handler-supplied domain errors produce
a structured JSON error body with code and message. -/
theorem failure_paths_response_shapes {T : Type}
    (jsonDec : List Nat → Except HttpResponse T)
    (sszDec : List Nat → Except DecodeError T) (req : HttpRequest)
    (ser : T → Option String) :
    ((req.contentType.bind headerValueToStr = none ∨
      ∃ ct, req.contentType.bind headerValueToStr = some ct ∧
        (asciiOf "application/json").isPrefixOf ct = false ∧
        (asciiOf "application/octet-stream").isPrefixOf ct = false) →
      JsonOrSsz.from_request jsonDec sszDec req = .error ⟨415, none, ""⟩) ∧
    (∀ ct e, req.contentType.bind headerValueToStr = some ct →
      (asciiOf "application/json").isPrefixOf ct = false →
      (asciiOf "application/octet-stream").isPrefixOf ct = true →
      sszDec req.body = .error e →
      JsonOrSsz.from_request jsonDec sszDec req = .error ⟨400, none, ""⟩) ∧
    (∀ b, ser b = none → build_response headerValueFromStr ser (.Success b) = .error 500) ∧
    (∀ e : ErrorResponse, build_response headerValueFromStr ser (.Error e) =
      .ok ⟨e.code, some "application/json", e.toJson⟩) := by
  have hct : headerValueFromStr "application/json" = some "application/json" := by decide
  refine ⟨fun h => ?_, fun ct e hctr hjson hoctet hssz => ?_, fun b hb => ?_, fun e => ?_⟩
  · rcases h with h | ⟨ct, hctr, hjson, hoctet⟩
    · unfold JsonOrSsz.from_request
      simp only [h]
      rfl
    · unfold JsonOrSsz.from_request
      simp only [hctr, hjson, hoctet]
      simp [statusIntoResponse]
  · unfold JsonOrSsz.from_request Ssz.from_request
    simp only [hctr, hjson, hoctet, hssz]
    simp [statusIntoResponse]
  · unfold build_response
    cases hhv : headerValueFromStr "application/json" <;> simp only [hb]
  · unfold build_response
    simp only [hct, serializeErrorBody]

/-- An SSZ decoder that always rejects, used by the C7 witness. -/
def sdFail : List Nat → Except DecodeError Nat := fun _ => .error (.offsetOutOfBounds 0 0)

/-- A request with a binary content type. -/
def reqOctet : HttpRequest := ⟨some (asciiOf "application/octet-stream"), [3]⟩

/-- Witness for C7 (amended): a 415 negotiation failure, a 400 decode
failure, and a structured handler error body, all at concrete inputs. -/
theorem failure_paths_response_shapes_witness :
    JsonOrSsz.from_request jd0 sdFail reqPlain = .error ⟨415, none, ""⟩ ∧
    JsonOrSsz.from_request jd0 sdFail reqOctet = .error ⟨400, none, ""⟩ ∧
    build_response headerValueFromStr (fun n : Nat => some (toString n))
        (.Error ⟨503, "overloaded", none⟩) =
      .ok ⟨503, some "application/json",
        ErrorResponse.toJson ⟨503, "overloaded", none⟩⟩ :=
  ⟨(failure_paths_response_shapes jd0 sdFail reqPlain (fun n : Nat => some (toString n))).1
      (.inr ⟨asciiOf "text/plain", by decide, by decide, by decide⟩),
   (failure_paths_response_shapes jd0 sdFail reqOctet (fun n : Nat => some (toString n))).2.1
      (asciiOf "application/octet-stream") (.offsetOutOfBounds 0 0) (by decide) (by decide)
      (by decide) rfl,
   (failure_paths_response_shapes jd0 sdFail reqOctet
      (fun n : Nat => some (toString n))).2.2.2 ⟨503, "overloaded", none⟩⟩
